import Mathlib

/-!
Shallow embedding of the `authz` Go package (`authorizer.go`): a generic
authorization registry mapping action strings to decision predicates.
Go panics are embedded as `Except.error` carrying the panic message, and
the Go `map[string]Effector[T, T2]` is embedded as a function
`String → Option (Effector S T)`.
-/

/-- Effector is the type of decision predicates: a function from a subject
and a target to a boolean, `true` meaning the action is permitted
(Go: `type Effector[T any, T2 any] func(T, T2) bool`). -/
def Effector (S T : Type) : Type := S → T → Bool

/-- Authorizer is a collection of Effectors keyed by action strings
(Go: `struct { Policies map[string]Effector[T, T2] }`). -/
structure Authorizer (S T : Type) : Type where
  Policies : String → Option (Effector S T)

/-- NewAuthorizer instantiates a new Authorizer with an empty policy map
(Go: `return &Authorizer[T, T2]{Policies: map[string]Effector[T, T2]{}}`). -/
def NewAuthorizer (S T : Type) : Authorizer S T :=
  ⟨fun _ => none⟩

/-- The single map insertion `a.Policies[action] = effect` performed by
`AddPolicy` on the non-duplicate path. -/
def insertPolicy {S T : Type} (a : Authorizer S T) (action : String)
    (effect : Effector S T) : Authorizer S T :=
  ⟨fun k => if k = action then some effect else a.Policies k⟩

/-- AddPolicy associates an Effector with an action. If an Effector already
exists for the action, the Go code panics with
`"a policy already exists for action " + action`; the panic is embedded as
`Except.error` with that message. -/
def AddPolicy {S T : Type} (a : Authorizer S T) (action : String)
    (effect : Effector S T) : Except String (Authorizer S T) :=
  match a.Policies action with
  | some _ => Except.error ("a policy already exists for action " ++ action)
  | none => Except.ok (insertPolicy a action effect)

/-- Enforce runs the Effector for a given action. If no Effector is found the
Go code panics with `"no policies for action " + action`; the panic is
embedded as `Except.error` with that message. -/
def Enforce {S T : Type} (a : Authorizer S T) (subject : S) (action : String)
    (resource : T) : Except String Bool :=
  match a.Policies action with
  | none => Except.error ("no policies for action " ++ action)
  | some fn => Except.ok (fn subject resource)

/-- A method call on an Authorizer: either an `AddPolicy` registration or an
`Enforce` query. -/
inductive Op (S T : Type) : Type where
  | register (action : String) (effect : Effector S T) : Op S T
  | enforce (subject : S) (action : String) (target : T) : Op S T

/-- The registry state after a method call. A successful `AddPolicy` yields
the updated registry; a panicking `AddPolicy` leaves the map as it was at the
moment of the panic (the insertion never executes); `Enforce` performs no
write to the map at all. -/
def applyOp {S T : Type} (a : Authorizer S T) : Op S T → Authorizer S T
  | Op.register action effect =>
      match AddPolicy a action effect with
      | Except.ok a' => a'
      | Except.error _ => a
  | Op.enforce _ _ _ => a

/-- Runs a sequence of method calls from a starting registry state. -/
def runOps {S T : Type} (a : Authorizer S T) : List (Op S T) → Authorizer S T
  | [] => a
  | op :: rest => runOps (applyOp a op) rest

/-- Whether a method call registers the given action identifier. -/
def registersAction {S T : Type} (id : String) : Op S T → Bool
  | Op.register action _ => decide (action = id)
  | Op.enforce _ _ _ => false

/-- Registry states reachable from construction by successful registrations
(Enforce calls never change the state, see `applyOp`). -/
inductive Reachable {S T : Type} : Authorizer S T → Prop where
  | init : Reachable (NewAuthorizer S T)
  | reg {a a' : Authorizer S T} {id : String} {p : Effector S T} :
      Reachable a → AddPolicy a id p = Except.ok a' → Reachable a'

/-- A store of registry instances, modelling several distinct Authorizer
heap objects indexed by natural numbers. -/
def Store (S T : Type) : Type := Nat → Authorizer S T

/-- AddPolicy performed on the registry instance at index `i` of a store:
only that instance is replaced by its updated state. -/
def addPolicyAt {S T : Type} (st : Store S T) (i : Nat) (action : String)
    (effect : Effector S T) : Except String (Store S T) :=
  match AddPolicy (st i) action effect with
  | Except.ok a' => Except.ok (fun j => if j = i then a' else st j)
  | Except.error e => Except.error e

/-- Concrete decision predicate used by the witnesses: always permit. -/
def pTrue : Effector Nat Nat := fun _ _ => true

/-- Concrete decision predicate used by the witnesses: always deny. -/
def pFalse : Effector Nat Nat := fun _ _ => false

/-- Concrete empty registry over `Nat`/`Nat` used by the witnesses. -/
def auth0 : Authorizer Nat Nat := NewAuthorizer Nat Nat

/-- Concrete registry holding exactly the "delete" policy `pTrue`. -/
def auth1 : Authorizer Nat Nat :=
  ⟨fun k => if k = "delete" then some pTrue else none⟩

/-- Concrete store whose every index holds a fresh empty registry. -/
def store0 : Store Nat Nat := fun _ => NewAuthorizer Nat Nat

/-- Concrete store after registering "delete" on the instance at index 0. -/
def store1 : Store Nat Nat := fun j => if j = 0 then auth1 else store0 j

theorem addPolicy_ok_iff {S T : Type} {a a' : Authorizer S T} {id : String}
    {p : Effector S T} :
    AddPolicy a id p = Except.ok a' ↔
      a.Policies id = none ∧ a' = insertPolicy a id p := by
  unfold AddPolicy
  cases h : a.Policies id with
  | some q => simp
  | none => simp [eq_comm]

theorem insertPolicy_policies {S T : Type} (a : Authorizer S T) (id : String)
    (p : Effector S T) (k : String) :
    (insertPolicy a id p).Policies k = if k = id then some p else a.Policies k :=
  rfl

/-- C1: for every registry, every action identifier registered with some
predicate `p`, and every subject/target pair, `Enforce` returns exactly
`p subject target` wrapped in `Except.ok` — the predicate's boolean is
returned verbatim. -/
theorem enforce_returns_predicate {S T : Type} (a : Authorizer S T)
    (id : String) (p : Effector S T) (hp : a.Policies id = some p)
    (s : S) (t : T) :
    Enforce a s id t = Except.ok (p s t) := by
  simp [Enforce, hp]

theorem enforce_returns_predicate_witness :
    Enforce auth1 3 "delete" 5 = Except.ok true :=
  enforce_returns_predicate auth1 "delete" pTrue rfl 3 5

/-- C2: on a registry where the action identifier already has a predicate,
any second `AddPolicy` call with that identifier fails fatally, whatever the
second predicate is (including the identical one). -/
theorem addPolicy_duplicate_fails {S T : Type} (a : Authorizer S T)
    (id : String) (p : Effector S T) (hp : a.Policies id = some p)
    (q : Effector S T) :
    AddPolicy a id q =
      Except.error ("a policy already exists for action " ++ id) := by
  simp [AddPolicy, hp]

theorem addPolicy_duplicate_fails_witness :
    AddPolicy auth1 "delete" pTrue =
      Except.error ("a policy already exists for action " ++ "delete") :=
  addPolicy_duplicate_fails auth1 "delete" pTrue rfl pTrue

theorem policies_none_applyOp {S T : Type} (a : Authorizer S T) (id : String)
    (op : Op S T) (h : a.Policies id = none)
    (hop : registersAction id op = false) :
    (applyOp a op).Policies id = none := by
  cases op with
  | enforce s idq t => exact h
  | register idq q =>
      have hne : idq ≠ id := of_decide_eq_false hop
      cases hreg : AddPolicy a idq q with
      | error e => simp [applyOp, hreg, h]
      | ok a' =>
          obtain ⟨hnone, ha'⟩ := addPolicy_ok_iff.mp hreg
          subst ha'
          simp [applyOp, hreg, insertPolicy, Ne.symm hne, h]

theorem runOps_policies_none {S T : Type} :
    ∀ (ops : List (Op S T)) (a : Authorizer S T) (id : String),
      a.Policies id = none →
      (∀ op ∈ ops, registersAction id op = false) →
      (runOps a ops).Policies id = none
  | [], _, _, h, _ => h
  | op :: rest, a, id, h, hid =>
      runOps_policies_none rest (applyOp a op) id
        (policies_none_applyOp a id op h (hid op (List.mem_cons_self op rest)))
        (fun o ho => hid o (List.mem_cons_of_mem op ho))

/-- C3: on a registry built from construction by any sequence of method
calls none of which registers the identifier `id`, `Enforce` with `id`
fails fatally for every subject/target pair, rather than returning a
default decision. -/
theorem unregistered_enforce_fails {S T : Type} (ops : List (Op S T))
    (id : String) (hid : ∀ op ∈ ops, registersAction id op = false)
    (s : S) (t : T) :
    Enforce (runOps (NewAuthorizer S T) ops) s id t =
      Except.error ("no policies for action " ++ id) := by
  have h := runOps_policies_none ops (NewAuthorizer S T) id rfl hid
  simp [Enforce, h]

theorem unregistered_enforce_fails_witness :
    Enforce (runOps (NewAuthorizer Nat Nat) [Op.register "delete" pTrue])
        0 "archive" 0 =
      Except.error ("no policies for action " ++ "archive") :=
  unregistered_enforce_fails [Op.register "delete" pTrue] "archive"
    (by
      intro op hop
      cases hop with
      | head => decide
      | tail _ hmem => cases hmem)
    0 0

/-- C4: in every reachable registry state, an action identifier present in
the mapping is associated with exactly one predicate, and no later method
call — a successful registration, a failing duplicate registration, or an
Enforce — changes that association. -/
theorem policy_binding_unique_and_permanent {S T : Type} {a : Authorizer S T}
    (_ha : Reachable a) (id : String) (p : Effector S T)
    (hp : a.Policies id = some p) :
    (∀ q : Effector S T, a.Policies id = some q → q = p) ∧
    (∀ op : Op S T, (applyOp a op).Policies id = some p) := by
  constructor
  · intro q hq
    rw [hp] at hq
    exact (Option.some.inj hq).symm
  · intro op
    cases op with
    | enforce s idq t => exact hp
    | register idq q =>
        cases hreg : AddPolicy a idq q with
        | error e => simp [applyOp, hreg, hp]
        | ok a' =>
            obtain ⟨hnone, ha'⟩ := addPolicy_ok_iff.mp hreg
            subst ha'
            by_cases hii : id = idq
            · subst hii
              rw [hp] at hnone
              cases hnone
            · simp [applyOp, hreg, insertPolicy, hii, hp]

theorem policy_binding_unique_and_permanent_witness :
    (∀ q : Effector Nat Nat, auth1.Policies "delete" = some q → q = pTrue) ∧
    (∀ op : Op Nat Nat, (applyOp auth1 op).Policies "delete" = some pTrue) :=
  policy_binding_unique_and_permanent
    (Reachable.reg Reachable.init rfl) "delete" pTrue rfl

/-- C5: a successful `AddPolicy` adds exactly the one binding for its own
action identifier and leaves every other action's association unchanged; a
failing duplicate `AddPolicy` leaves the entire mapping unchanged — the
panic fires before the insertion, so no partial-registration state exists. -/
theorem addPolicy_frame {S T : Type} (a : Authorizer S T) (id : String)
    (p : Effector S T) :
    (∀ a' : Authorizer S T, AddPolicy a id p = Except.ok a' →
        a'.Policies id = some p ∧
        ∀ k : String, k ≠ id → a'.Policies k = a.Policies k) ∧
    (∀ e : String, AddPolicy a id p = Except.error e →
        applyOp a (Op.register id p) = a) := by
  constructor
  · intro a' hok
    obtain ⟨hnone, ha'⟩ := addPolicy_ok_iff.mp hok
    subst ha'
    constructor
    · simp [insertPolicy]
    · intro k hk
      simp [insertPolicy, hk]
  · intro e herr
    simp [applyOp, herr]

theorem addPolicy_frame_witness :
    auth1.Policies "delete" = some pTrue ∧
    auth1.Policies "archive" = auth0.Policies "archive" ∧
    applyOp auth1 (Op.register "delete" pFalse) = auth1 :=
  ⟨((addPolicy_frame auth0 "delete" pTrue).1 auth1 rfl).1,
   ((addPolicy_frame auth0 "delete" pTrue).1 auth1 rfl).2 "archive" (by decide),
   (addPolicy_frame auth1 "delete" pFalse).2
     ("a policy already exists for action " ++ "delete") rfl⟩

/-- C6: a freshly constructed registry has no predicate associated with any
action identifier, and `Enforce` on it fails fatally for every action and
every subject/target pair. -/
theorem new_authorizer_empty {S T : Type} (id : String) (s : S) (t : T) :
    (NewAuthorizer S T).Policies id = none ∧
    Enforce (NewAuthorizer S T) s id t =
      Except.error ("no policies for action " ++ id) :=
  ⟨rfl, rfl⟩

/-- C7: an `Enforce` call never modifies the registry — the state after the
call equals the state before it, and the mapping is pointwise identical,
whether the call succeeds or fails fatally. -/
theorem enforce_preserves_registry {S T : Type} (a : Authorizer S T) (s : S)
    (id : String) (t : T) :
    applyOp a (Op.enforce s id t) = a ∧
    ∀ k : String, (applyOp a (Op.enforce s id t)).Policies k = a.Policies k :=
  ⟨rfl, fun _ => rfl⟩

/-- C8: `Enforce` is deterministic — with a predicate registered for the
action, two `Enforce` calls with equal subject, action, and target on the
unchanged registry return equal results. -/
theorem enforce_deterministic {S T : Type} (a : Authorizer S T) (id : String)
    (p : Effector S T) (_hp : a.Policies id = some p) (s : S) (t : T)
    (r1 r2 : Except String Bool)
    (h1 : Enforce a s id t = r1) (h2 : Enforce a s id t = r2) :
    r1 = r2 :=
  h1.symm.trans h2

theorem enforce_deterministic_witness :
    Enforce auth1 0 "delete" 0 = Enforce auth1 0 "delete" 0 :=
  enforce_deterministic auth1 "delete" pTrue rfl 0 0
    (Enforce auth1 0 "delete" 0) (Enforce auth1 0 "delete" 0) rfl rfl

/-- C9: distinct registry instances are isolated — registering an action on
the instance at index `i` of a store leaves the distinct instance at index
`j` unchanged, and `Enforce` on that other instance with an identifier it
never registered still fails fatally. -/
theorem registry_isolation {S T : Type} (st : Store S T) (i j : Nat)
    (hij : j ≠ i) (id : String) (p : Effector S T) (st' : Store S T)
    (hreg : addPolicyAt st i id p = Except.ok st')
    (hj : (st j).Policies id = none) (s : S) (t : T) :
    st' j = st j ∧
    Enforce (st' j) s id t = Except.error ("no policies for action " ++ id) := by
  have hstj : st' j = st j := by
    unfold addPolicyAt at hreg
    cases hadd : AddPolicy (st i) id p with
    | error e =>
        rw [hadd] at hreg
        cases hreg
    | ok a' =>
        rw [hadd] at hreg
        have hfun := Except.ok.inj hreg
        have := congrFun hfun j
        rw [if_neg hij] at this
        exact this.symm
  refine ⟨hstj, ?_⟩
  rw [hstj]
  simp [Enforce, hj]

theorem registry_isolation_witness :
    store1 1 = store0 1 ∧
    Enforce (store1 1) 0 "delete" 0 =
      Except.error ("no policies for action " ++ "delete") :=
  registry_isolation store0 0 1 (by decide) "delete" pTrue store1 rfl rfl 0 0

/-- C10: the code does not enforce the spec's non-empty-identifier input
condition — on a registry where the empty string is not yet registered,
`AddPolicy` with the empty identifier succeeds (no fatal failure), and a
subsequent `Enforce` with the empty identifier returns the predicate's
result. -/
theorem empty_action_id_allowed {S T : Type} (a : Authorizer S T)
    (h : a.Policies "" = none) (p : Effector S T) (s : S) (t : T) :
    AddPolicy a "" p = Except.ok (insertPolicy a "" p) ∧
    Enforce (insertPolicy a "" p) s "" t = Except.ok (p s t) := by
  constructor
  · simp [AddPolicy, h]
  · simp [Enforce, insertPolicy]

theorem empty_action_id_allowed_witness :
    AddPolicy (NewAuthorizer Nat Nat) "" pTrue =
      Except.ok (insertPolicy (NewAuthorizer Nat Nat) "" pTrue) ∧
    Enforce (insertPolicy (NewAuthorizer Nat Nat) "" pTrue) 0 "" 0 =
      Except.ok (pTrue 0 0) :=
  empty_action_id_allowed (NewAuthorizer Nat Nat) rfl pTrue 0 0
